import Mathlib

/-!
Verification of the IncentiveMD census-geocoding proxy (`serve.py`).

The development shallowly embeds the pure decision logic of the server:

* the per-IP sliding-window rate limiter (`check_rate_limit`),
* input sanitization and address validation for the geocode handler,
* the comma-splitting address parser with its state/zip and city regexes,
* the one-line-then-component upstream call flow,
* the HTTP responses each handler branch emits (status, headers, body shape).

Wall-clock times (Python floats) are modelled as rationals; Python `int()`
truncation is `pyInt`.  Strings handled character-wise are `List Char`.
-/

/-! ## Rate limiter (`check_rate_limit`, serve.py lines 52-71) -/

/-- `RATE_LIMIT_WINDOW = 60` seconds (serve.py line 27). -/
def RATE_LIMIT_WINDOW : ℚ := 60

/-- `RATE_LIMIT_MAX_REQUESTS = 30` requests per window per IP (serve.py line 28). -/
def RATE_LIMIT_MAX_REQUESTS : ℕ := 30

/-- Python `int()` on a rational: truncation toward zero. -/
def pyInt (q : ℚ) : ℤ := if 0 ≤ q then ⌊q⌋ else ⌈q⌉

/-- The prune step: keep the timestamps `t` with `now - t < RATE_LIMIT_WINDOW`
(the list comprehension at serve.py lines 58-61). -/
def prune (now : ℚ) (l : List ℚ) : List ℚ :=
  l.filter (fun t => decide (now - t < RATE_LIMIT_WINDOW))

/-- Python `min` over a list (total here; the code only applies `min` to a
nonempty list, at serve.py line 65). -/
def listMin : List ℚ → ℚ
  | [] => 0
  | [t] => t
  | t :: u :: ts => min t (listMin (u :: ts))

/-- Result of one `check_rate_limit` call: the returned pair
`(allowed, retry_after)` together with the state written back to
`rate_limit_data[ip_address]`. -/
structure CheckResult where
  allowed : Bool
  retry_after : ℤ
  state : List ℚ
  deriving Repr, DecidableEq

/-- `check_rate_limit` for one key: prune, then reject with a retry hint when
the pruned list is at capacity (the new timestamp is not recorded and the
state is just the pruned list), otherwise append `now` and admit
(serve.py lines 52-71).  `retry_after` is
`int(RATE_LIMIT_WINDOW - (current_time - oldest)) + 1` (line 66). -/
def check_rate_limit (now : ℚ) (l : List ℚ) : CheckResult :=
  if RATE_LIMIT_MAX_REQUESTS ≤ (prune now l).length then
    { allowed := false
      retry_after := pyInt (RATE_LIMIT_WINDOW - (now - listMin (prune now l))) + 1
      state := prune now l }
  else
    { allowed := true, retry_after := 0, state := prune now l ++ [now] }

theorem listMin_mem : ∀ l : List ℚ, l ≠ [] → listMin l ∈ l
  | [], h => absurd rfl h
  | [t], _ => by simp [listMin]
  | t :: u :: ts, _ => by
      rcases le_total t (listMin (u :: ts)) with h | h
      · simp [listMin, min_eq_left h]
      · have := listMin_mem (u :: ts) (by simp)
        simp only [listMin, min_eq_right h]
        exact List.mem_cons_of_mem _ this

theorem listMin_le : ∀ l : List ℚ, ∀ t ∈ l, listMin l ≤ t
  | [], t, h => absurd h (List.not_mem_nil t)
  | [u], t, h => by
      simp only [List.mem_singleton] at h
      simp [listMin, h]
  | u :: v :: ts, t, h => by
      rcases List.mem_cons.mp h with rfl | h
      · exact min_le_left _ _
      · exact le_trans (min_le_right _ _) (listMin_le (v :: ts) t h)

theorem prune_mem_lt {now t : ℚ} {l : List ℚ} (h : t ∈ prune now l) :
    now - t < RATE_LIMIT_WINDOW := by
  have := List.mem_filter.mp h
  exact of_decide_eq_true this.2

theorem prune_eq_self {now : ℚ} {l : List ℚ}
    (h : ∀ t ∈ l, now - t < RATE_LIMIT_WINDOW) : prune now l = l :=
  List.filter_eq_self.mpr fun t ht => decide_eq_true (h t ht)

theorem length_filter_lt_of_mem {α : Type} {p : α → Bool} {a : α} :
    ∀ {l : List α}, a ∈ l → p a = false → (l.filter p).length < l.length
  | [], h, _ => absurd h (List.not_mem_nil a)
  | b :: l, h, hpa => by
      rcases List.mem_cons.mp h with rfl | h
      · rw [List.filter_cons, hpa]
        simp only [Bool.false_eq_true, if_false, List.length_cons]
        exact Nat.lt_succ_of_le (List.length_filter_le p l)
      · rw [List.filter_cons]
        by_cases hb : p b
        · simp only [hb, if_true, List.length_cons]
          exact Nat.succ_lt_succ (length_filter_lt_of_mem h hpa)
        · simp only [hb, Bool.false_eq_true, if_false, List.length_cons]
          exact Nat.lt_succ_of_lt (length_filter_lt_of_mem h hpa)

theorem listMin_replicate {n : ℕ} {c : ℚ} (h : n ≠ 0) :
    listMin (List.replicate n c) = c := by
  have hne : List.replicate n c ≠ [] := by
    simpa [List.replicate_eq_nil_iff] using h
  exact List.eq_of_mem_replicate (listMin_mem _ hne)

theorem prune_replicate_of_lt {now c : ℚ} {n : ℕ}
    (h : now - c < RATE_LIMIT_WINDOW) :
    prune now (List.replicate n c) = List.replicate n c :=
  prune_eq_self fun t ht => by rw [List.eq_of_mem_replicate ht]; exact h

/-- C1: the rate-limit check rejects (without recording the new request)
exactly when the pruned list holds at least `RATE_LIMIT_MAX_REQUESTS = 30`
entries, and otherwise appends `now` and admits; consequently a key whose 30
recorded timestamps are all inside the trailing 60-second window of `now` is
rejected on the next check, and once `now2` is at least a full window past
the oldest recorded timestamp a subsequent check is admitted. -/
theorem check_rate_limit_spec (now now2 : ℚ) (l s : List ℚ) :
    (RATE_LIMIT_MAX_REQUESTS ≤ (prune now l).length →
      (check_rate_limit now l).allowed = false ∧
      (check_rate_limit now l).state = prune now l) ∧
    ((prune now l).length < RATE_LIMIT_MAX_REQUESTS →
      (check_rate_limit now l).allowed = true ∧
      (check_rate_limit now l).state = prune now l ++ [now]) ∧
    (s.length = RATE_LIMIT_MAX_REQUESTS →
      (∀ t ∈ s, now - t < RATE_LIMIT_WINDOW) →
      (check_rate_limit now s).allowed = false) ∧
    (s ≠ [] → s.length ≤ RATE_LIMIT_MAX_REQUESTS →
      RATE_LIMIT_WINDOW ≤ now2 - listMin s →
      (check_rate_limit now2 s).allowed = true) := by
  refine ⟨?_, ?_, ?_, ?_⟩
  · intro h
    rw [check_rate_limit, if_pos h]
    exact ⟨rfl, rfl⟩
  · intro h
    rw [check_rate_limit, if_neg (Nat.not_le.mpr h)]
    exact ⟨rfl, rfl⟩
  · intro hlen hall
    have hp : prune now s = s := prune_eq_self hall
    rw [check_rate_limit, if_pos (by rw [hp, hlen])]
  · intro hne hlen hwin
    have hmem : listMin s ∈ s := listMin_mem s hne
    have hfail : (fun t => decide (now2 - t < RATE_LIMIT_WINDOW)) (listMin s) = false :=
      decide_eq_false (not_lt.mpr hwin)
    have hlt : (prune now2 s).length < s.length :=
      length_filter_lt_of_mem hmem hfail
    rw [check_rate_limit, if_neg (Nat.not_le.mpr (lt_of_lt_of_le hlt hlen))]

/-- Witness for `check_rate_limit_spec`: a key with 30 timestamps at time 100
checked again at time 100 is rejected and keeps its pruned state; an empty key
is admitted and records the timestamp; at time 160 (a full window past the
oldest timestamp 100) the key with 30 timestamps is admitted again. -/
theorem check_rate_limit_spec_witness :
    (check_rate_limit 100 (List.replicate 30 100)).allowed = false ∧
    (check_rate_limit 100 (List.replicate 30 100)).state =
      prune 100 (List.replicate 30 100) ∧
    (check_rate_limit 100 ([] : List ℚ)).allowed = true ∧
    (check_rate_limit 100 ([] : List ℚ)).state = prune 100 [] ++ [100] ∧
    (check_rate_limit 160 (List.replicate 30 100)).allowed = true := by
  have h30 : RATE_LIMIT_MAX_REQUESTS ≤ (prune 100 (List.replicate 30 (100:ℚ))).length := by
    rw [prune_replicate_of_lt (by norm_num [RATE_LIMIT_WINDOW])]
    simp [RATE_LIMIT_MAX_REQUESTS]
  have h0 : (prune 100 ([] : List ℚ)).length < RATE_LIMIT_MAX_REQUESTS := by
    simp [prune, RATE_LIMIT_MAX_REQUESTS]
  refine ⟨((check_rate_limit_spec 100 160 (List.replicate 30 100)
      (List.replicate 30 100)).1 h30).1,
    ((check_rate_limit_spec 100 160 (List.replicate 30 100)
      (List.replicate 30 100)).1 h30).2,
    ((check_rate_limit_spec 100 160 ([] : List ℚ) []).2.1 h0).1,
    ((check_rate_limit_spec 100 160 ([] : List ℚ) []).2.1 h0).2,
    (check_rate_limit_spec 100 160 [] (List.replicate 30 100)).2.2.2
      (by simp [List.replicate_eq_nil_iff]) (by simp [RATE_LIMIT_MAX_REQUESTS])
      (by rw [listMin_replicate (by norm_num)]; norm_num [RATE_LIMIT_WINDOW])⟩

theorem pyInt_of_nonneg {q : ℚ} (h : 0 ≤ q) : pyInt q = ⌊q⌋ := by
  rw [pyInt, if_pos h]

theorem prune_ne_nil_of_le_length {now : ℚ} {l : List ℚ}
    (h : RATE_LIMIT_MAX_REQUESTS ≤ (prune now l).length) : prune now l ≠ [] :=
  List.ne_nil_of_length_pos (lt_of_lt_of_le (by norm_num [RATE_LIMIT_MAX_REQUESTS]) h)

/-- C2 counterexample: at `now = 201/2` with thirty recorded timestamps `41`
(all inside the window, since `201/2 - 41 = 59.5 < 60`), the check rejects and
returns `retry_after = int(60 - 59.5) + 1 = 1`, whereas the claimed formula
`ceil(60 - 59.5) + 1` evaluates to `2`. -/
theorem check_rate_limit_retry_not_ceil :
    (check_rate_limit (201/2) (List.replicate 30 41)).allowed = false ∧
    (check_rate_limit (201/2) (List.replicate 30 41)).retry_after = 1 ∧
    ⌈RATE_LIMIT_WINDOW - ((201/2 : ℚ) -
      listMin (prune (201/2) (List.replicate 30 41)))⌉ + 1 = 2 := by
  have hp : prune (201/2) (List.replicate 30 (41:ℚ)) = List.replicate 30 41 :=
    prune_replicate_of_lt (by norm_num [RATE_LIMIT_WINDOW])
  have h30 : RATE_LIMIT_MAX_REQUESTS ≤
      (prune (201/2) (List.replicate 30 (41:ℚ))).length := by
    rw [hp]; simp [RATE_LIMIT_MAX_REQUESTS]
  have hmin : listMin (prune (201/2) (List.replicate 30 (41:ℚ))) = 41 := by
    rw [hp]; exact listMin_replicate (by norm_num)
  have hq : RATE_LIMIT_WINDOW -
      ((201/2 : ℚ) - listMin (prune (201/2) (List.replicate 30 41))) = 1/2 := by
    rw [hmin]; norm_num [RATE_LIMIT_WINDOW]
  refine ⟨?_, ?_, ?_⟩
  · rw [check_rate_limit, if_pos h30]
  · rw [check_rate_limit, if_pos h30, hq,
      pyInt_of_nonneg (by norm_num), Int.floor_eq_zero_iff.mpr (by norm_num)]
    rfl
  · rw [hq, show ⌈(1/2 : ℚ)⌉ = 1 from Int.ceil_eq_iff.mpr (by norm_num)]
    rfl

/-- C2 (amended): on rejection the retry hint equals
`⌊WINDOW - (now - oldest)⌋ + 1` — Python `int()` truncation of the
nonnegative remaining-window time, not `ceil(...) + 1` — where `oldest` is the
minimum surviving timestamp, and the new request is not recorded (the state is
exactly the pruned list). -/
theorem check_rate_limit_retry_floor (now : ℚ) (l : List ℚ)
    (h : RATE_LIMIT_MAX_REQUESTS ≤ (prune now l).length) :
    (check_rate_limit now l).allowed = false ∧
    (check_rate_limit now l).retry_after =
      ⌊RATE_LIMIT_WINDOW - (now - listMin (prune now l))⌋ + 1 ∧
    (check_rate_limit now l).state = prune now l := by
  have hmem : listMin (prune now l) ∈ prune now l :=
    listMin_mem _ (prune_ne_nil_of_le_length h)
  have hlt : now - listMin (prune now l) < RATE_LIMIT_WINDOW := prune_mem_lt hmem
  have hq : 0 ≤ RATE_LIMIT_WINDOW - (now - listMin (prune now l)) :=
    le_of_lt (sub_pos.mpr hlt)
  rw [check_rate_limit, if_pos h]
  exact ⟨rfl, by rw [pyInt_of_nonneg hq], rfl⟩

/-- Witness for `check_rate_limit_retry_floor`: thirty timestamps `0` checked
at `now = 0` give a rejection whose retry hint is `⌊60 - 0⌋ + 1 = 61`. -/
theorem check_rate_limit_retry_floor_witness :
    (check_rate_limit 0 (List.replicate 30 0)).allowed = false ∧
    (check_rate_limit 0 (List.replicate 30 0)).retry_after =
      ⌊RATE_LIMIT_WINDOW - ((0:ℚ) - listMin (prune 0 (List.replicate 30 0)))⌋ + 1 ∧
    (check_rate_limit 0 (List.replicate 30 0)).state =
      prune 0 (List.replicate 30 0) :=
  check_rate_limit_retry_floor 0 (List.replicate 30 0) (by
    rw [prune_replicate_of_lt (by norm_num [RATE_LIMIT_WINDOW])]
    simp [RATE_LIMIT_MAX_REQUESTS])

/-- C3: whenever the check rejects and every surviving timestamp lies in the
trailing window of `now` (strictly newer than `now - 60` and no newer than
`now` itself), the returned retry hint lies between `1` and
`RATE_LIMIT_WINDOW + 1 = 61` inclusive. -/
theorem check_rate_limit_retry_bounds (now : ℚ) (l : List ℚ)
    (h : RATE_LIMIT_MAX_REQUESTS ≤ (prune now l).length)
    (hin : ∀ t ∈ prune now l, now - RATE_LIMIT_WINDOW < t ∧ t ≤ now) :
    (check_rate_limit now l).allowed = false ∧
    1 ≤ (check_rate_limit now l).retry_after ∧
    (check_rate_limit now l).retry_after ≤ 61 := by
  have hmem : listMin (prune now l) ∈ prune now l :=
    listMin_mem _ (prune_ne_nil_of_le_length h)
  have hlt : now - listMin (prune now l) < RATE_LIMIT_WINDOW := prune_mem_lt hmem
  have hle : listMin (prune now l) ≤ now := (hin _ hmem).2
  have hq0 : 0 ≤ RATE_LIMIT_WINDOW - (now - listMin (prune now l)) :=
    le_of_lt (sub_pos.mpr hlt)
  have hq60 : RATE_LIMIT_WINDOW - (now - listMin (prune now l)) ≤ 60 := by
    have : 0 ≤ now - listMin (prune now l) := sub_nonneg.mpr hle
    norm_num [RATE_LIMIT_WINDOW]
    linarith
  rw [check_rate_limit, if_pos h]
  refine ⟨rfl, ?_, ?_⟩
  · simp only [pyInt_of_nonneg hq0]
    have : (0:ℤ) ≤ ⌊RATE_LIMIT_WINDOW - (now - listMin (prune now l))⌋ :=
      Int.floor_nonneg.mpr hq0
    omega
  · simp only [pyInt_of_nonneg hq0]
    have h60 : ⌊RATE_LIMIT_WINDOW - (now - listMin (prune now l))⌋ ≤ ⌊(60:ℚ)⌋ :=
      Int.floor_le_floor hq60
    have : ⌊(60:ℚ)⌋ = 60 := Int.floor_eq_iff.mpr (by norm_num)
    omega

/-- Witness for `check_rate_limit_retry_bounds`: thirty timestamps `0` checked
at `now = 0` are all inside the trailing window, and the rejection's retry
hint (here exactly `61`) satisfies both bounds. -/
theorem check_rate_limit_retry_bounds_witness :
    (check_rate_limit 0 (List.replicate 30 0)).allowed = false ∧
    1 ≤ (check_rate_limit 0 (List.replicate 30 0)).retry_after ∧
    (check_rate_limit 0 (List.replicate 30 0)).retry_after ≤ 61 :=
  check_rate_limit_retry_bounds 0 (List.replicate 30 0)
    (by rw [prune_replicate_of_lt (by norm_num [RATE_LIMIT_WINDOW])]
        simp [RATE_LIMIT_MAX_REQUESTS])
    (fun t ht => by
      have ht2 : t ∈ List.replicate 30 (0:ℚ) := by
        rwa [prune_replicate_of_lt (by norm_num [RATE_LIMIT_WINDOW])] at ht
      rw [List.eq_of_mem_replicate ht2]
      norm_num [RATE_LIMIT_WINDOW])

/-- C4: after any check, every timestamp left in the key's sequence is inside
the trailing window of the `now` used for the prune (`now - t < 60`), and
after an admitted check the sequence holds at most
`RATE_LIMIT_MAX_REQUESTS = 30` timestamps. -/
theorem check_rate_limit_invariant (now : ℚ) (l : List ℚ) :
    (∀ t ∈ (check_rate_limit now l).state, now - t < RATE_LIMIT_WINDOW) ∧
    ((check_rate_limit now l).allowed = true →
      (check_rate_limit now l).state.length ≤ RATE_LIMIT_MAX_REQUESTS) := by
  by_cases h : RATE_LIMIT_MAX_REQUESTS ≤ (prune now l).length
  · rw [check_rate_limit, if_pos h]
    exact ⟨fun t ht => prune_mem_lt ht, fun hfalse => by simp at hfalse⟩
  · rw [check_rate_limit, if_neg h]
    constructor
    · intro t ht
      rcases List.mem_append.mp ht with ht | ht
      · exact prune_mem_lt ht
      · rw [List.mem_singleton.mp ht]
        norm_num [RATE_LIMIT_WINDOW]
    · intro _
      have := Nat.lt_of_not_le h
      simp only [List.length_append, List.length_singleton]
      omega

/-- Witness for `check_rate_limit_invariant`: an empty key checked at
`now = 0` is admitted; its resulting sequence (`[0]`) is inside the window and
has length at most 30. -/
theorem check_rate_limit_invariant_witness :
    (∀ t ∈ (check_rate_limit 0 []).state, (0:ℚ) - t < RATE_LIMIT_WINDOW) ∧
    (check_rate_limit 0 ([] : List ℚ)).state.length ≤ RATE_LIMIT_MAX_REQUESTS :=
  ⟨(check_rate_limit_invariant 0 []).1,
   (check_rate_limit_invariant 0 []).2 rfl⟩

/-! ## Input sanitization and address validation
(`sanitize_input`, serve.py lines 42-50; `handle_geocode` lines 144-164) -/

/-- The whitespace characters Python `str.strip()` removes (the ASCII ones
together with the Latin-1 whitespace code points). -/
def isPySpace (c : Char) : Bool :=
  c == ' ' || c == '\t' || c == '\n' || c == '\r' ||
  c.toNat == 11 || c.toNat == 12 || c.toNat == 133 || c.toNat == 160

/-- Python `str.strip()`: drop leading and trailing whitespace. -/
def pyStrip (s : List Char) : List Char :=
  ((s.dropWhile isPySpace).reverse.dropWhile isPySpace).reverse

/-- The character filter of `sanitize_input`: keep `ord(char) >= 32` or one of
tab, newline, carriage return (serve.py line 47). -/
def keepChar (c : Char) : Bool :=
  decide (32 ≤ c.toNat) || c == '\t' || c == '\n' || c == '\r'

/-- `sanitize_input`: the falsy empty string maps to `""`; otherwise remove
control characters, truncate to `max_length`, and strip (serve.py
lines 42-50). -/
def sanitize_input (text : List Char) (maxLength : ℕ) : List Char :=
  if text = [] then []
  else pyStrip ((text.filter keepChar).take maxLength)

/-- Outcome of the address-validation prefix of `handle_geocode`
(serve.py lines 146-164): the three `send_error(400, ...)` exits — "Missing
address parameter", "Invalid address parameter", "Address too long (max 500
characters)" — or proceeding to the upstream call with the sanitized
address. -/
inductive AddressCheck where
  | missingAddress
  | invalidAddress
  | tooLong
  | proceed (address : List Char)
  deriving Repr, DecidableEq

/-- The validation prefix of `handle_geocode` (serve.py lines 149-164).
An absent `address` query parameter arrives here as `""`
(`params.get("address", [""])[0]`). -/
def validate_address (address : List Char) : AddressCheck :=
  if address = [] then .missingAddress
  else if sanitize_input address 500 = [] then .invalidAddress
  else if 500 < (sanitize_input address 500).length then .tooLong
  else .proceed (sanitize_input address 500)

theorem pyStrip_length_le (s : List Char) : (pyStrip s).length ≤ s.length := by
  calc (pyStrip s).length
      = ((s.dropWhile isPySpace).reverse.dropWhile isPySpace).length := by
        rw [pyStrip, List.length_reverse]
    _ ≤ (s.dropWhile isPySpace).reverse.length :=
        ((s.dropWhile isPySpace).reverse.dropWhile_sublist isPySpace).length_le
    _ = (s.dropWhile isPySpace).length := List.length_reverse _
    _ ≤ s.length := (s.dropWhile_sublist isPySpace).length_le

theorem sanitize_input_length_le (text : List Char) (maxLength : ℕ) :
    (sanitize_input text maxLength).length ≤ maxLength := by
  rw [sanitize_input]
  by_cases h : text = []
  · simp [h]
  · rw [if_neg h]
    exact le_trans (pyStrip_length_le _) (List.length_take_le _ _)

set_option maxRecDepth 4000 in
/-- C5 counterexample: an address of 501 characters is not answered with the
"too long" 400 — `sanitize_input` truncates it to 500 characters first, so
the handler proceeds to the upstream call with the truncated address. -/
theorem address_501_not_rejected :
    validate_address (List.replicate 501 'a') =
      AddressCheck.proceed (List.replicate 500 'a') ∧
    (validate_address (List.replicate 501 'a') == AddressCheck.tooLong) = false := by
  constructor
  · decide
  · decide

/-- C5 (amended): a missing or empty `address` parameter yields the 400
"Missing address parameter" exit; but no address ever yields the "too long"
400 — sanitization truncates to 500 characters before the length test, so
every check ends in missing, invalid, or proceeding with the (at most
500-character) sanitized address. -/
theorem validate_address_cases :
    validate_address [] = AddressCheck.missingAddress ∧
    ∀ a : List Char,
      validate_address a = AddressCheck.missingAddress ∨
      validate_address a = AddressCheck.invalidAddress ∨
      (validate_address a = AddressCheck.proceed (sanitize_input a 500) ∧
        (sanitize_input a 500).length ≤ 500) := by
  refine ⟨rfl, fun a => ?_⟩
  by_cases ha : a = []
  · left; rw [validate_address, if_pos ha]
  · by_cases hs : sanitize_input a 500 = []
    · right; left; rw [validate_address, if_neg ha, if_pos hs]
    · right; right
      have hlen : (sanitize_input a 500).length ≤ 500 := sanitize_input_length_le a 500
      refine ⟨?_, hlen⟩
      rw [validate_address, if_neg ha, if_neg hs, if_neg (Nat.not_lt.mpr hlen)]

/-! ## CORS and response construction
(`get_cors_origin` serve.py lines 35-40; the response-emitting branches of
`do_GET`, `handle_geocode` and `handle_geocode_reverse`) -/

/-- Shape of a response body the server writes. -/
inductive ResponseBody where
  /-- `json.dumps` of an object with an `error` field. -/
  | errorObj (msg : String)
  /-- `json.dumps` of an object with `error` and `code` fields. -/
  | errorObjWithCode (msg : String) (code : ℕ)
  /-- `json.dumps` of the 429 object with `error` and `retry_after` fields. -/
  | rateLimitObj (msg : String) (retry : ℤ)
  /-- the upstream JSON echoed verbatim. -/
  | passthrough (json : String)
  /-- the stdlib `send_error` HTML page carrying the given message. -/
  | htmlError (msg : String)
  deriving Repr, DecidableEq

/-- One HTTP response: status, the explicitly sent headers in order, body. -/
structure HttpResponse where
  status : ℕ
  headers : List (String × String)
  body : ResponseBody
  deriving Repr, DecidableEq

/-- The `Content-Type` header every API branch sends. -/
def CONTENT_TYPE_JSON : String × String :=
  ("Content-Type", "application/json; charset=utf-8")

/-- The default `ALLOWED_ORIGINS` (serve.py line 33: the fallback value of the
environment variable, split on commas). -/
def ALLOWED_ORIGINS_default : List String :=
  ["https://ambay30.github.io", "http://localhost:8090", "http://127.0.0.1:8090"]

/-- `get_cors_origin` (serve.py lines 35-40), with the module-level
`ALLOWED_ORIGINS` passed explicitly: echo an allow-listed request origin,
default to the production origin otherwise. -/
def get_cors_origin (allowed_origins : List String) (request_origin : String) :
    String :=
  if request_origin ∈ allowed_origins then request_origin
  else "https://ambay30.github.io"

/-- The 429 rate-limited response of `do_GET` (serve.py lines 110-119 and
124-134): status, `Content-Type`, `Retry-After`, JSON body. -/
def rate_limited_response (retry : ℤ) : HttpResponse :=
  { status := 429
    headers := [CONTENT_TYPE_JSON, ("Retry-After", toString retry)]
    body := .rateLimitObj "Rate limit exceeded. Please try again later." retry }

/-- A `send_error` response (the 400/404/414 exits): the stdlib handler emits
an HTML error page with `Content-Type` and `Connection` headers only. -/
def send_error_response (code : ℕ) (msg : String) : HttpResponse :=
  { status := code
    headers := [("Content-Type", "text/html;charset=utf-8"), ("Connection", "close")]
    body := .htmlError msg }

/-- The 200 success response of `handle_geocode` (serve.py lines 237-242):
`Content-Type`, then `Access-Control-Allow-Origin` from `get_cors_origin`. -/
def geocode_success_response (allowed_origins : List String) (origin : String)
    (json : String) : HttpResponse :=
  { status := 200
    headers := [CONTENT_TYPE_JSON,
      ("Access-Control-Allow-Origin", get_cors_origin allowed_origins origin)]
    body := .passthrough json }

/-- The 200 success response of `handle_geocode_reverse` (serve.py
lines 325-330), built identically. -/
def reverse_success_response (allowed_origins : List String) (origin : String)
    (json : String) : HttpResponse :=
  { status := 200
    headers := [CONTENT_TYPE_JSON,
      ("Access-Control-Allow-Origin", get_cors_origin allowed_origins origin)]
    body := .passthrough json }

/-- The `urllib.error.HTTPError` branch (serve.py lines 244-252): pass the
upstream status through; fixed message when deployed (`PORT` set), the raw
exception text locally. -/
def upstream_http_error_response (deployed : Bool) (code : ℕ)
    (excText : String) : HttpResponse :=
  { status := code
    headers := [CONTENT_TYPE_JSON]
    body := .errorObjWithCode
      (if deployed then "Geocoding service error" else excText) code }

/-- The `urllib.error.URLError` (network failure) branch of `handle_geocode`
(serve.py lines 256-264): 502, fixed message when deployed. -/
def geocode_url_error_response (deployed : Bool) (excText : String) :
    HttpResponse :=
  { status := 502
    headers := [CONTENT_TYPE_JSON]
    body := .errorObj
      (if deployed then "Geocoding service unavailable" else excText) }

/-- The `urllib.error.URLError` branch of `handle_geocode_reverse`
(serve.py lines 344-352), textually identical to the geocode one. -/
def reverse_url_error_response (deployed : Bool) (excText : String) :
    HttpResponse :=
  { status := 502
    headers := [CONTENT_TYPE_JSON]
    body := .errorObj
      (if deployed then "Geocoding service unavailable" else excText) }

/-- The catch-all `Exception` branch (serve.py lines 268-275 and 356-363):
500, fixed message when deployed. -/
def unexpected_error_response (deployed : Bool) (excText : String) :
    HttpResponse :=
  { status := 500
    headers := [CONTENT_TYPE_JSON]
    body := .errorObj
      (if deployed then "Internal server error" else excText) }

/-- C6 counterexample: the 429 rate-limit response, the `send_error` 400, the
502 network-error response and the catch-all 500 all lack the
`Access-Control-Allow-Origin` header — only the 200 success branches send
it. -/
theorem cors_header_missing_on_errors :
    (rate_limited_response 1).headers.lookup "Access-Control-Allow-Origin"
      = none ∧
    (send_error_response 400 "Missing address parameter").headers.lookup
      "Access-Control-Allow-Origin" = none ∧
    (geocode_url_error_response true "timed out").headers.lookup
      "Access-Control-Allow-Origin" = none ∧
    (unexpected_error_response true "boom").headers.lookup
      "Access-Control-Allow-Origin" = none := by
  refine ⟨rfl, rfl, rfl, rfl⟩

/-- C6 (amended): the `Access-Control-Allow-Origin` header is sent only on
the two 200 success responses, where its value is `get_cors_origin` of the
request's `Origin` — the origin itself when allow-listed, the production
origin `https://ambay30.github.io` otherwise (in particular for an absent
`Origin`, which arrives as `""`); the 429, `send_error` 400, upstream-error,
502 and 500 responses carry no such header. -/
theorem cors_only_on_success (allowed : List String) (origin json : String)
    (retry : ℤ) (deployed : Bool) (code : ℕ) (msg excText : String) :
    (geocode_success_response allowed origin json).headers.lookup
      "Access-Control-Allow-Origin" = some (get_cors_origin allowed origin) ∧
    (reverse_success_response allowed origin json).headers.lookup
      "Access-Control-Allow-Origin" = some (get_cors_origin allowed origin) ∧
    (origin ∈ allowed → get_cors_origin allowed origin = origin) ∧
    (origin ∉ allowed →
      get_cors_origin allowed origin = "https://ambay30.github.io") ∧
    get_cors_origin ALLOWED_ORIGINS_default "" = "https://ambay30.github.io" ∧
    (rate_limited_response retry).headers.lookup
      "Access-Control-Allow-Origin" = none ∧
    (send_error_response code msg).headers.lookup
      "Access-Control-Allow-Origin" = none ∧
    (upstream_http_error_response deployed code excText).headers.lookup
      "Access-Control-Allow-Origin" = none ∧
    (geocode_url_error_response deployed excText).headers.lookup
      "Access-Control-Allow-Origin" = none ∧
    (reverse_url_error_response deployed excText).headers.lookup
      "Access-Control-Allow-Origin" = none ∧
    (unexpected_error_response deployed excText).headers.lookup
      "Access-Control-Allow-Origin" = none := by
  refine ⟨rfl, rfl, ?_, ?_, ?_, rfl, rfl, rfl, rfl, rfl, rfl⟩
  · intro h
    rw [get_cors_origin, if_pos h]
  · intro h
    rw [get_cors_origin, if_neg h]
  · decide

/-- Witness for `cors_only_on_success`: the allow-listed origin
`http://localhost:8090` is echoed; the non-listed origin `""` falls back to
the production origin; the 429 response has no CORS header. -/
theorem cors_only_on_success_witness :
    get_cors_origin ALLOWED_ORIGINS_default "http://localhost:8090"
      = "http://localhost:8090" ∧
    get_cors_origin ALLOWED_ORIGINS_default "https://evil.example"
      = "https://ambay30.github.io" ∧
    (geocode_success_response ALLOWED_ORIGINS_default "http://localhost:8090"
      "x").headers.lookup "Access-Control-Allow-Origin"
      = some (get_cors_origin ALLOWED_ORIGINS_default "http://localhost:8090") ∧
    (rate_limited_response 1).headers.lookup "Access-Control-Allow-Origin"
      = none :=
  ⟨(cors_only_on_success ALLOWED_ORIGINS_default "http://localhost:8090" "x"
      1 true 400 "m" "e").2.2.1 (by decide),
   (cors_only_on_success ALLOWED_ORIGINS_default "https://evil.example" "x"
      1 true 400 "m" "e").2.2.2.1 (by decide),
   (cors_only_on_success ALLOWED_ORIGINS_default "http://localhost:8090" "x"
      1 true 400 "m" "e").1,
   (cors_only_on_success ALLOWED_ORIGINS_default "http://localhost:8090" "x"
      1 true 400 "m" "e").2.2.2.2.2.1⟩

/-- C9: a `urllib.error.URLError` (timeout, DNS failure, connection refused)
is answered with status 502 by both `handle_geocode` and
`handle_geocode_reverse`, and in deployed mode (`PORT` set) the body is the
fixed generic message `Geocoding service unavailable`, independent of the
exception text. -/
theorem url_error_gives_502 (deployed : Bool) (excText : String) :
    (geocode_url_error_response deployed excText).status = 502 ∧
    (reverse_url_error_response deployed excText).status = 502 ∧
    (geocode_url_error_response true excText).body =
      ResponseBody.errorObj "Geocoding service unavailable" ∧
    (reverse_url_error_response true excText).body =
      ResponseBody.errorObj "Geocoding service unavailable" :=
  ⟨rfl, rfl, rfl, rfl⟩

/-! ## Address parsing and the one-line / component upstream flow
(`handle_geocode`, serve.py lines 166-242) -/

/-- Python `address.split(",")`: split on every comma, keeping empty parts. -/
def splitComma : List Char → List (List Char)
  | [] => [[]]
  | c :: rest =>
    match splitComma rest with
    | [] => [[c]]
    | p :: ps => if c = ',' then [] :: p :: ps else (c :: p) :: ps

/-- Uppercase ASCII letter, as tested by `[A-Z]` on the uppercased text. -/
def isAZ (c : Char) : Bool :=
  decide (65 ≤ c.toNat) && decide (c.toNat ≤ 90)

/-- A character of the class `[A-Za-z\s]`. -/
def isLetterOrSpace (c : Char) : Bool :=
  (decide (65 ≤ c.toNat) && decide (c.toNat ≤ 90)) ||
  (decide (97 ≤ c.toNat) && decide (c.toNat ≤ 122)) || isPySpace c

/-- The anchored regex `([A-Z]{2})\s*(\d{5}(?:-\d{4})?)?` applied by
`re.match` to `state_zip.strip().upper()` (serve.py lines 199-204).  It
succeeds exactly when the stripped, uppercased text begins with two letters;
the optional zip group captures five digits (optionally `-` and four more)
after optional whitespace, and `zip_code = match.group(2) or ""` turns a
missing group into the empty string. -/
def parseStateZip (state_zip : List Char) : Option (List Char × List Char) :=
  match (pyStrip state_zip).map Char.toUpper with
  | c1 :: c2 :: rest =>
    if isAZ c1 && isAZ c2 then
      let afterWs := rest.dropWhile isPySpace
      let d5 := afterWs.take 5
      let zipc :=
        if d5.length = 5 && d5.all Char.isDigit then
          match afterWs.drop 5 with
          | '-' :: t =>
            let d4 := t.take 4
            if d4.length = 4 && d4.all Char.isDigit then d5 ++ '-' :: d4 else d5
          | _ => d5
        else []
      some ([c1, c2], zipc)
    else none
  | _ => none

/-- One backtracking step of the regex `([A-Za-z\s]+)\s+[A-Z]{2}`: try the
first group at length `n`, longest first (Python's greedy matching).  The
`\s+` after the group can only succeed with its maximal extent, because the
following `[A-Z]{2}` never matches a whitespace character. -/
def cityFallbackAux (u : List Char) : ℕ → Option (List Char)
  | 0 => none
  | n+1 =>
    match u.drop (n+1) with
    | r :: rest =>
      if isPySpace r then
        match (r :: rest).dropWhile isPySpace with
        | a :: b :: _ =>
          if isAZ a && isAZ b then some (u.take (n+1)) else cityFallbackAux u n
        | _ => cityFallbackAux u n
      else cityFallbackAux u n
    | [] => cityFallbackAux u n

/-- The fallback city regex `([A-Za-z\s]+)\s+[A-Z]{2}` applied by `re.match`
to `state_zip.upper()` (serve.py lines 212-216); returns `group(1)`. -/
def cityFallback (state_zip : List Char) : Option (List Char) :=
  let u := state_zip.map Char.toUpper
  cityFallbackAux u (u.takeWhile isLetterOrSpace).length

/-- The street/city/state/zip pulled out of a comma-separated address
(the local variables of serve.py lines 193-216). -/
structure AddressComponents where
  street : List Char
  city : List Char
  state : List Char
  zip_code : List Char
  deriving Repr, DecidableEq

/-- The component-extraction block of `handle_geocode` (serve.py
lines 189-216): split on commas and strip the parts; with at least two parts,
take `street = parts[0]`, a tentative `city = parts[1]` only when there are
more than two parts, and `state_zip = parts[-1]`; parse state and zip from
the last part; fill an empty city from `parts[-2]` when there are at least
three parts, else from the fallback city regex.  `none` means the regex match
failed (or fewer than two parts) and no component call is attempted. -/
def parseComponents (address : List Char) : Option AddressComponents :=
  let parts := (splitComma address).map pyStrip
  if 2 ≤ parts.length then
    let street := parts.getD 0 []
    let city0 := if 2 < parts.length then parts.getD 1 [] else []
    let state_zip := parts.getD (parts.length - 1) []
    match parseStateZip state_zip with
    | some (st, zipc) =>
      let city :=
        if city0 = [] ∧ 3 ≤ parts.length then pyStrip (parts.getD (parts.length - 2) [])
        else if city0 = [] then
          match cityFallback state_zip with
          | some g1 => pyStrip g1
          | none => []
        else city0
      some { street := street, city := city, state := st, zip_code := zipc }
    | none => none
  else none

/-- An outbound request to the census geocoder: endpoint, the query
parameters built from the address data, and the `urlopen` timeout. -/
structure UpstreamRequest where
  endpoint : String
  params : List (String × List Char)
  timeoutSecs : ℕ
  deriving Repr, DecidableEq

/-- The primary request (serve.py lines 167-179): the `onelineaddress`
endpoint with the address, opened with `timeout=15`. -/
def one_line_request (address : List Char) : UpstreamRequest :=
  { endpoint := "geographies/onelineaddress"
    params := [("address", address)]
    timeoutSecs := 15 }

/-- The fallback request (serve.py lines 219-233): the component `address`
endpoint with street, city and state, plus `zip` only when nonempty, opened
with `timeout=15`. -/
def component_request (c : AddressComponents) : UpstreamRequest :=
  { endpoint := "geographies/address"
    params := [("street", c.street), ("city", c.city), ("state", c.state)] ++
      (if c.zip_code = [] then [] else [("zip", c.zip_code)])
    timeoutSecs := 15 }

/-- An upstream JSON response, reduced to the part the handler inspects:
`result.addressMatches` (absent fields default to `[]`). -/
structure UpstreamResponse where
  addressMatches : List String
  deriving Repr, DecidableEq

/-- The observable outcome of the upstream-call flow: the first request, the
optional second (component) request, and the response adopted as result. -/
structure GeocodeFlow where
  firstRequest : UpstreamRequest
  secondRequest : Option UpstreamRequest
  result : UpstreamResponse
  deriving Repr, DecidableEq

/-- The upstream-call flow of `handle_geocode` after validation (serve.py
lines 166-242), with the two network responses supplied as inputs: issue the
one-line request; when the first response's match list is empty and the
address contains a comma, try `parseComponents`, and on success issue the
component request and adopt its response as the result (even when it too is
empty of matches); in every other case the first response stands. -/
def handle_geocode_flow (address : List Char) (resp1 resp2 : UpstreamResponse) :
    GeocodeFlow :=
  if resp1.addressMatches = [] ∧ ',' ∈ address then
    match parseComponents address with
    | some comps =>
      { firstRequest := one_line_request address
        secondRequest := some (component_request comps)
        result := resp2 }
    | none =>
      { firstRequest := one_line_request address
        secondRequest := none
        result := resp1 }
  else
    { firstRequest := one_line_request address
      secondRequest := none
      result := resp1 }

/-- C7: the flow always issues the one-line request with a 15-second timeout;
when the first response has matches or the address has no comma, no second
call is made and the first response stands; when the first response is empty
of matches and the address has a comma, a successful component parse issues
the component request (also with a 15-second timeout) and adopts the second
response — whatever it contains — while a failed parse keeps the first
response with no second call. -/
theorem handle_geocode_flow_spec (address : List Char)
    (resp1 resp2 : UpstreamResponse) :
    (handle_geocode_flow address resp1 resp2).firstRequest =
      one_line_request address ∧
    (one_line_request address).timeoutSecs = 15 ∧
    (¬(resp1.addressMatches = [] ∧ ',' ∈ address) →
      (handle_geocode_flow address resp1 resp2).secondRequest = none ∧
      (handle_geocode_flow address resp1 resp2).result = resp1) ∧
    (resp1.addressMatches = [] → ',' ∈ address →
      ∀ comps, parseComponents address = some comps →
        (handle_geocode_flow address resp1 resp2).secondRequest =
          some (component_request comps) ∧
        (component_request comps).timeoutSecs = 15 ∧
        (handle_geocode_flow address resp1 resp2).result = resp2) ∧
    (resp1.addressMatches = [] → ',' ∈ address →
      parseComponents address = none →
      (handle_geocode_flow address resp1 resp2).secondRequest = none ∧
      (handle_geocode_flow address resp1 resp2).result = resp1) := by
  refine ⟨?_, rfl, ?_, ?_, ?_⟩
  · simp only [handle_geocode_flow]
    by_cases hc : resp1.addressMatches = [] ∧ ',' ∈ address
    · rw [if_pos hc]
      rcases hp : parseComponents address with _ | comps <;> rfl
    · rw [if_neg hc]
  · intro hc
    simp only [handle_geocode_flow]
    rw [if_neg hc]
    exact ⟨rfl, rfl⟩
  · intro h1 h2 comps hp
    simp only [handle_geocode_flow]
    rw [if_pos (And.intro h1 h2), hp]
    exact ⟨rfl, rfl, rfl⟩
  · intro h1 h2 hp
    simp only [handle_geocode_flow]
    rw [if_pos (And.intro h1 h2), hp]
    exact ⟨rfl, rfl⟩

/-- Witness for `handle_geocode_flow_spec`: with an empty first response, the
parseable address `"1 Main St, Springfield, IL 62704"` triggers the component
call and adopts the second response; the comma-free `"5 Oak Rd"` and the
unparseable `"a, 5"` (last part does not start with two letters) trigger no
second call and keep the first response. -/
theorem handle_geocode_flow_spec_witness :
    (handle_geocode_flow ("1 Main St, Springfield, IL 62704".toList)
        ⟨[]⟩ ⟨["match1"]⟩).secondRequest =
      some (component_request
        { street := "1 Main St".toList, city := "Springfield".toList,
          state := "IL".toList, zip_code := "62704".toList }) ∧
    (handle_geocode_flow ("1 Main St, Springfield, IL 62704".toList)
        ⟨[]⟩ ⟨["match1"]⟩).result = ⟨["match1"]⟩ ∧
    (handle_geocode_flow ("5 Oak Rd".toList) ⟨[]⟩ ⟨["match1"]⟩).secondRequest
      = none ∧
    (handle_geocode_flow ("5 Oak Rd".toList) ⟨[]⟩ ⟨["match1"]⟩).result = ⟨[]⟩ ∧
    (handle_geocode_flow ("a, 5".toList) ⟨[]⟩ ⟨["match1"]⟩).secondRequest
      = none :=
  ⟨((handle_geocode_flow_spec ("1 Main St, Springfield, IL 62704".toList)
      ⟨[]⟩ ⟨["match1"]⟩).2.2.2.1 rfl (by decide)
      { street := "1 Main St".toList, city := "Springfield".toList,
        state := "IL".toList, zip_code := "62704".toList } (by decide)).1,
   ((handle_geocode_flow_spec ("1 Main St, Springfield, IL 62704".toList)
      ⟨[]⟩ ⟨["match1"]⟩).2.2.2.1 rfl (by decide)
      { street := "1 Main St".toList, city := "Springfield".toList,
        state := "IL".toList, zip_code := "62704".toList } (by decide)).2.2,
   ((handle_geocode_flow_spec ("5 Oak Rd".toList)
      ⟨[]⟩ ⟨["match1"]⟩).2.2.1 (by decide)).1,
   ((handle_geocode_flow_spec ("5 Oak Rd".toList)
      ⟨[]⟩ ⟨["match1"]⟩).2.2.1 (by decide)).2,
   ((handle_geocode_flow_spec ("a, 5".toList)
      ⟨[]⟩ ⟨["match1"]⟩).2.2.2.2 rfl (by decide) (by decide)).1⟩

/-- C8 counterexample: on `"123 Main St, IL 62704"` the extracted city is the
empty string — the fallback regex finds nothing before the two-letter state
code in `"IL 62704"` — so no nonempty city is obtained. -/
theorem parse_no_city_in_statezip :
    ((parseComponents ("123 Main St, IL 62704".toList)).map
      AddressComponents.city) = some [] ∧
    cityFallback ("IL 62704".toList) = none :=
  ⟨by decide, by decide⟩

/-- C8 (amended): on `"123 Main St, IL 62704"` the parser extracts
street `"123 Main St"`, state `"IL"` and zip `"62704"`, but the city stays
empty: the last part holds no text before the state code, so the fallback
letter-run heuristic fails and the component call carries an empty city. -/
theorem parse_statezip_only_components :
    parseComponents ("123 Main St, IL 62704".toList) =
      some { street := "123 Main St".toList, city := [],
             state := "IL".toList, zip_code := "62704".toList } := by
  decide

/-- C10: the state/zip regex is anchored only at the start and its zip group
is optional, so whenever the last part — stripped and uppercased — begins
with two letters, the match succeeds with the state being exactly those two
letters, whatever follows; e.g. a last part `"Springfield"` parses with state
`"SP"` and empty zip, and the flow for `"123 Main St, Springfield"` with an
empty first response issues the component call with state `"SP"` and no zip
parameter. -/
theorem parseStateZip_two_letter_lenient (sz : List Char) (c1 c2 : Char)
    (rest : List Char)
    (h : (pyStrip sz).map Char.toUpper = c1 :: c2 :: rest)
    (h1 : isAZ c1 = true) (h2 : isAZ c2 = true) :
    (∃ zipc, parseStateZip sz = some ([c1, c2], zipc)) ∧
    parseStateZip ("Springfield".toList) = some ("SP".toList, []) ∧
    (handle_geocode_flow ("123 Main St, Springfield".toList) ⟨[]⟩
        ⟨[]⟩).secondRequest =
      some (component_request
        { street := "123 Main St".toList, city := [],
          state := "SP".toList, zip_code := [] }) := by
  refine ⟨?_, by decide, by decide⟩
  simp only [parseStateZip, h, h1, h2, Bool.and_self, if_true]
  exact ⟨_, rfl⟩

/-- Witness for `parseStateZip_two_letter_lenient` at the last part
`"Springfield"`, whose stripped uppercase form starts with `'S'`, `'P'`. -/
theorem parseStateZip_two_letter_lenient_witness :
    (∃ zipc, parseStateZip ("Springfield".toList) = some (['S', 'P'], zipc)) ∧
    parseStateZip ("Springfield".toList) = some ("SP".toList, []) ∧
    (handle_geocode_flow ("123 Main St, Springfield".toList) ⟨[]⟩
        ⟨[]⟩).secondRequest =
      some (component_request
        { street := "123 Main St".toList, city := [],
          state := "SP".toList, zip_code := [] }) :=
  parseStateZip_two_letter_lenient ("Springfield".toList) 'S' 'P'
    ("RINGFIELD".toList) (by decide) (by decide) (by decide)
